import Mathlib

/-!
Verification development for the flight-booking chat assistant.

The definitions below are a shallow embedding of the Python sources:
  src/intent_classifier.py, src/main.py, src/services/auth.py,
  src/services/flight.py, src/transactions/auth_flow.py,
  src/transactions/booking.py, src/transactions/factory.py,
  src/transactions/status.py.
Python dictionaries used as per-transaction context bags are embedded as
records with Option-valued fields (a cleared dictionary is the all-None
record); Python exceptions are embedded as an explicit PyErr error type
carried by Except; external collaborators (database-backed flight search
and booking creation, the trained sklearn pipeline, the password hash and
the current date) are parameters collected in an Env record.
-/

namespace FlightBot

/-- Python exception values that can cross the embedded code. -/
inductive PyErr
  | valueError (msg : String)
  | typeError (msg : String)
  | keyError (msg : String)
  | attributeError (msg : String)
  | indexError (msg : String)
  | serviceError (msg : String)
  deriving DecidableEq, Repr

/-! ## Small Python helpers (string and number handling) -/

/-- ASCII lower-casing, embedding `str.lower()` on the ASCII inputs used here. -/
def pyLower (s : String) : String := s.map Char.toLower

/-- ASCII upper-casing, embedding `str.upper()` on the ASCII inputs used here. -/
def pyUpper (s : String) : String := s.map Char.toUpper

/-- Substring containment, embedding Python `sub in s` for nonempty `sub`. -/
def pyContains (s sub : String) : Bool := (s.splitOn sub).length ≠ 1

/-- Characters stripped by Python `str.strip()` (ASCII whitespace). -/
def isPySpace (c : Char) : Bool :=
  c = ' ' || c = '\t' || c = '\n' || c = '\r' || c = '\x0b' || c = '\x0c'

/-- Digit accumulator for `int(...)`: digits possibly separated by single
underscores (an underscore must sit between two digits). -/
def pyIntGo (acc : Nat) : List Char → Option Nat
  | [] => some acc
  | '_' :: c :: rest =>
      if c.isDigit then pyIntGo (acc * 10 + (c.toNat - 48)) rest else none
  | ['_'] => none
  | c :: rest =>
      if c.isDigit then pyIntGo (acc * 10 + (c.toNat - 48)) rest else none

/-- Embedding of Python `int(message)` on strings: optional surrounding
whitespace, optional sign, then digits with optional single underscores.
Returns none exactly when CPython raises ValueError. -/
def pyInt (s : String) : Option Int :=
  let core := ((s.data.dropWhile isPySpace).reverse.dropWhile isPySpace).reverse
  match core with
  | '+' :: c :: rest =>
      if c.isDigit then (pyIntGo (c.toNat - 48) rest).map Int.ofNat else none
  | '-' :: c :: rest =>
      if c.isDigit then (pyIntGo (c.toNat - 48) rest).map (fun n => -(n : Int)) else none
  | c :: rest =>
      if c.isDigit then (pyIntGo (c.toNat - 48) rest).map Int.ofNat else none
  | [] => none

/-! ## Dates (`datetime.date` and `strptime("%Y-%m-%d")`) -/

/-- Calendar date value, embedding `datetime.date`. -/
structure DateD where
  year : Nat
  month : Nat
  day : Nat
  deriving DecidableEq, Repr

/-- Python `date` comparison `a < b` (calendar lexicographic order). -/
def dateLt (a b : DateD) : Bool :=
  a.year < b.year ||
    (a.year = b.year && (a.month < b.month ||
      (a.month = b.month && a.day < b.day)))

/-- Gregorian leap-year test used by `datetime`. -/
def isLeap (y : Nat) : Bool := y % 4 = 0 && (y % 100 ≠ 0 || y % 400 = 0)

/-- Days in a month, as validated by the `datetime.date` constructor. -/
def daysInMonth (y m : Nat) : Nat :=
  if m = 2 then (if isLeap y then 29 else 28)
  else if m = 4 || m = 6 || m = 9 || m = 11 then 30
  else 31

/-- Split a character list on a separator character (the semantics of
`str.split(sep)` for a one-character separator). -/
def splitOnChar (sep : Char) : List Char → List (List Char)
  | [] => [[]]
  | c :: rest =>
      let r := splitOnChar sep rest
      if c = sep then [] :: r
      else
        match r with
        | g :: gs => (c :: g) :: gs
        | [] => [[c]]

/-- All-digit nonempty character-group test. -/
def allDigits (l : List Char) : Bool := !l.isEmpty && l.all Char.isDigit

/-- Numeric value of a digit group. -/
def natOfDigits (l : List Char) : Nat :=
  l.foldl (fun a c => a * 10 + (c.toNat - 48)) 0

/-- Embedding of `datetime.strptime(message, "%Y-%m-%d").date()`:
three dash-separated digit groups (year up to 4 digits, month and day up
to 2), each field in range and the day valid for the month. Returns none
exactly when strptime raises ValueError. -/
def parseDate (s : String) : Option DateD :=
  match splitOnChar '-' s.data with
  | [ys, ms, ds] =>
      if allDigits ys && ys.length ≤ 4 && allDigits ms && ms.length ≤ 2 &&
          allDigits ds && ds.length ≤ 2 then
        let y := natOfDigits ys
        let m := natOfDigits ms
        let d := natOfDigits ds
        if 1 ≤ y && y ≤ 9999 && 1 ≤ m && m ≤ 12 && 1 ≤ d && d ≤ daysInMonth y m then
          some ⟨y, m, d⟩
        else none
      else none
  | _ => none

/-- Zero-pad a number to two digits (date and time rendering). -/
def pad2 (n : Nat) : String := if n < 10 then "0" ++ toString n else toString n

/-- Zero-pad a year to four digits, as `date.isoformat` does. -/
def pad4 (n : Nat) : String :=
  let s := toString n
  String.mk (List.replicate (4 - s.length) '0') ++ s

/-- Rendering of a date as `YYYY-MM-DD` (both `str(date)` and the
`strftime("%Y-%m-%d")` calls in the table code). -/
def dateStr (d : DateD) : String :=
  pad4 d.year ++ "-" ++ pad2 d.month ++ "-" ++ pad2 d.day

/-- Rendering of a time as `HH:MM` (`strftime("%H:%M")`). -/
def timeStr (hm : Nat × Nat) : String := pad2 hm.1 ++ ":" ++ pad2 hm.2

/-! ## Decimal arithmetic (`decimal.Decimal` with `round(_, 2)`) -/

/-- Round a rational to the nearest integer, ties to even: the rounding
used by `Decimal.__round__` (ROUND_HALF_EVEN). -/
def rndHE (q : ℚ) : ℤ :=
  let f := ⌊q⌋
  let r := q - (f : ℚ)
  if r < 1/2 then f
  else if 1/2 < r then f + 1
  else if Even f then f else f + 1

/-- `round(d, 2)` on a Decimal: round half-even at two decimal places. -/
def rndHE2 (q : ℚ) : ℚ := (rndHE (q * 100) : ℚ) / 100

/-- Render a two-decimal Decimal the way `str` shows a quantized value
(used for the prices the booking flow prints); falls back to a plain
rational rendering off that domain. -/
def decStr (q : ℚ) : String :=
  if (q * 100).den = 1 then
    let c : ℤ := (q * 100).num
    let s := toString c.natAbs
    let s := if s.length < 3 then String.mk (List.replicate (3 - s.length) '0') ++ s else s
    let ip := String.mk (s.data.take (s.data.length - 2))
    let fp := String.mk (s.data.drop (s.data.length - 2))
    (if c < 0 then "-" else "") ++ ip ++ "." ++ fp
  else toString q

/-- Left-justified fixed-width field, Python `"{:N}".format(string)`
(no truncation when the value is wider than the field). -/
def padRight (w : Nat) (s : String) : String :=
  s ++ String.mk (List.replicate (w - s.length) ' ')

/-- Right-justified fixed-width field, Python `"{:N}".format(number)`. -/
def padLeft (w : Nat) (s : String) : String :=
  String.mk (List.replicate (w - s.length) ' ') ++ s

/-- Python `str(x)` for an optional string context entry (`None` prints
as "None"). -/
def pyOptStr : Option String → String
  | none => "None"
  | some s => s

/-- Python `str(x)` for an optional date context entry. -/
def pyOptDateStr : Option DateD → String
  | none => "None"
  | some d => dateStr d

/-- Python `str(x)` for an optional Decimal context entry. -/
def pyOptDecStr : Option ℚ → String
  | none => "None"
  | some q => decStr q

/-- Python truthiness of an optional string (`None` and `""` are falsy). -/
def pyTruthyOptStr : Option String → Bool
  | none => false
  | some s => s ≠ ""

/-! ## services/flight.py: rates, FlightInfo, Trip, pricing -/

/-- `Rates.TRIP_TYPE_RATES` keys; `Trip.trip_type` only ever holds these
two strings, embedded as an enumeration. -/
inductive TripType
  | ONEWAY
  | ROUNDTRIP
  deriving DecidableEq, Repr

/-- `Rates.TRIP_TYPE_RATES` (Decimal(str(rate)) values are exact). -/
def TRIP_TYPE_RATES : TripType → ℚ
  | .ONEWAY => 1
  | .ROUNDTRIP => 9/10

/-- `Rates.CLASS_RATES` as the source dictionary (FIRST 2.5, BUSINESS 1.8,
ECONOMY 1.0). -/
def CLASS_RATES : List (String × ℚ) :=
  [("FIRST", 5/2), ("BUSINESS", 9/5), ("ECONOMY", 1)]

/-- `FlightInfo` value object (base_price is a Decimal, embedded as ℚ;
departure_time as an hour-minute pair). -/
structure FlightInfo where
  id : Nat
  origin_base : String
  origin_location : String
  origin_code : String
  departure_date : DateD
  departure_time : Nat × Nat
  destination_base : String
  destination_location : String
  destination_code : String
  status : String
  base_price : ℚ
  deriving DecidableEq, Repr

/-- `Trip` value object. -/
structure Trip where
  trip_type : TripType
  outbound_flight : FlightInfo
  return_flight : Option FlightInfo := none
  deriving DecidableEq, Repr

namespace Trip

/-- `Trip._calculate_base_trip_price`: outbound base price, plus the
return flight base price when the trip is a round trip with a return
flight, times the trip-type rate. -/
def calculate_base_trip_price (t : Trip) : ℚ :=
  let total_base :=
    match t.trip_type, t.return_flight with
    | .ROUNDTRIP, some rf => t.outbound_flight.base_price + rf.base_price
    | _, _ => t.outbound_flight.base_price
  total_base * TRIP_TYPE_RATES t.trip_type

/-- `Trip.get_first_class_price`. -/
def get_first_class_price (t : Trip) : ℚ :=
  rndHE2 (t.calculate_base_trip_price * (5/2))

/-- `Trip.get_business_class_price`. -/
def get_business_class_price (t : Trip) : ℚ :=
  rndHE2 (t.calculate_base_trip_price * (9/5))

/-- `Trip.get_economy_class_price`. -/
def get_economy_class_price (t : Trip) : ℚ :=
  rndHE2 (t.calculate_base_trip_price * 1)

/-- `Trip.get_all_class_prices`: the three-entry dictionary. -/
def get_all_class_prices (t : Trip) : List (String × ℚ) :=
  [("FIRST", t.get_first_class_price),
   ("BUSINESS", t.get_business_class_price),
   ("ECONOMY", t.get_economy_class_price)]

end Trip

/-- Python `dict.get(key)` on a small association list (None if absent). -/
def dictGet (m : List (String × ℚ)) (k : String) : Option ℚ :=
  (m.find? (fun p => p.1 = k)).map Prod.snd

/-! ## services/auth.py: users, login, register -/

/-- A row of the `User` table (password stored hashed). -/
structure UserRec where
  id : Nat
  name : String
  email : String
  password : String
  preferred_class : Option String := none
  deriving DecidableEq, Repr

/-- `UserInfo` value object exposed by the auth service. -/
structure UserInfo where
  id : Nat
  name : String
  email : String
  preferred_class : Option String := none
  deriving DecidableEq, Repr

/-- `UserInfo.from_orm`. -/
def UserInfo.from_orm (u : UserRec) : UserInfo :=
  ⟨u.id, u.name, u.email, u.preferred_class⟩

/-- The `Auth` service state: the backing `User` table and
`_current_user`. -/
structure AuthSvc where
  users : List UserRec
  currentUser : Option UserRec := none
  deriving DecidableEq, Repr

namespace AuthSvc

/-- `Auth.login`: look the email up (`User.get`), compare the stored
hash with the hash of the supplied password, set `_current_user` on
success. The email argument is the flow context entry (an ORM
comparison against None matches no row). The hash function is the
environment's stand-in for `hashlib.sha256`. -/
def login (hash : String → String) (a : AuthSvc) (email : Option String)
    (password : String) : AuthSvc × Bool × String :=
  match a.users.find? (fun u => some u.email = email) with
  | some u =>
      if u.password = hash password then
        ({ a with currentUser := some u }, true, "Login successful")
      else (a, false, "Invalid email or password")
  | none => (a, false, "Invalid email or password")

/-- `Auth.register`: reject an existing email, otherwise create the user
(autoincrement id) and set `_current_user`. -/
def register (hash : String → String) (a : AuthSvc) (name : String)
    (email : Option String) (password : String) : AuthSvc × Bool × String :=
  if a.users.any (fun u => some u.email = email) then
    (a, false, "Email already registered")
  else
    let uid := (a.users.map (fun u => u.id)).foldr max 0 + 1
    let u : UserRec :=
      { id := uid, name := name, email := pyOptStr email,
        password := hash password, preferred_class := none }
    ({ users := a.users ++ [u], currentUser := some u }, true,
      "Registration successful")

/-- `Auth.is_authenticated`. -/
def is_authenticated (a : AuthSvc) : Bool := a.currentUser.isSome

/-- `Auth.current_user` property. -/
def current_user (a : AuthSvc) : Option UserInfo :=
  a.currentUser.map UserInfo.from_orm

end AuthSvc

/-! ## transactions/auth_flow.py -/

/-- `AuthFlowStates`. -/
inductive AuthFlowStates
  | INIT
  | AWAITING_EMAIL
  | AWAITING_PASSWORD
  | AWAITING_NAME
  | COMPLETE
  deriving DecidableEq, Repr

/-- `AuthFlow`: state plus the context dictionary (action, email,
password, name). -/
structure AuthFlow where
  state : AuthFlowStates := .INIT
  action : Option String := none
  email : Option String := none
  password : Option String := none
  name : Option String := none
  deriving DecidableEq, Repr

namespace AuthFlow

/-- A freshly constructed `AuthFlow` (its `__init__`). -/
def init : AuthFlow := {}

/-- `AuthFlow.is_complete`. -/
def is_complete (f : AuthFlow) : Bool := f.state = AuthFlowStates.COMPLETE

/-- `AuthFlow._handle_init`: keyword scan chooses register vs login,
always advances to AWAITING_EMAIL. -/
def handle_init (f : AuthFlow) (message : String) : AuthFlow × String :=
  let m := pyLower message
  if pyContains m "register" || pyContains m "sign up" then
    ({ f with action := some "register", state := .AWAITING_EMAIL },
      "Let\x27s create an account. Please enter your email:")
  else
    ({ f with action := some "login", state := .AWAITING_EMAIL },
      "Please enter your email to login:")

/-- `AuthFlow._handle_email`. -/
def handle_email (f : AuthFlow) (message : String) : AuthFlow × String :=
  ({ f with email := some message, state := .AWAITING_PASSWORD },
    "Please enter your password:")

/-- `AuthFlow._handle_password`: store the password; for a login action
call the auth service; note that the failure branch returns the
email re-prompt WITHOUT changing `state` (the source sets no state
there), for a register action advance to AWAITING_NAME. -/
def handle_password (hash : String → String) (a : AuthSvc) (f : AuthFlow)
    (message : String) : AuthFlow × AuthSvc × String :=
  let f := { f with password := some message }
  if f.action = some "login" then
    let (a', success, msg) := a.login hash f.email message
    if success then
      ({ f with state := .COMPLETE }, a',
        msg ++ "\nNow, let\x27s continue with your booking.")
    else
      (f, a', msg ++ "\nPlease try again with your email:")
  else
    ({ f with state := .AWAITING_NAME }, a, "Please enter your name:")

/-- `AuthFlow._handle_name`: store the name, call register; on success
complete, on failure fall back to AWAITING_EMAIL. -/
def handle_name (hash : String → String) (a : AuthSvc) (f : AuthFlow)
    (message : String) : AuthFlow × AuthSvc × String :=
  let f := { f with name := some message }
  let (a', success, msg) :=
    a.register hash (pyOptStr f.name) f.email (pyOptStr f.password)
  if success then
    ({ f with state := .COMPLETE }, a',
      msg ++ "\nNow, let\x27s continue with your booking.")
  else
    ({ f with state := .AWAITING_EMAIL }, a',
      msg ++ "\nPlease try again with your email:")

/-- `AuthFlow.process`: state dispatch. -/
def process (hash : String → String) (a : AuthSvc) (f : AuthFlow)
    (message : String) : AuthFlow × AuthSvc × String :=
  match f.state with
  | .INIT => let (f', r) := f.handle_init message; (f', a, r)
  | .AWAITING_EMAIL => let (f', r) := f.handle_email message; (f', a, r)
  | .AWAITING_PASSWORD => handle_password hash a f message
  | .AWAITING_NAME => handle_name hash a f message
  | .COMPLETE => (f, a, "An error occurred in authentication.")

end AuthFlow

/-! ## intent_classifier.py -/

/-- The trained sklearn pipeline, an external collaborator: class
probabilities for a text, and the predicted (argmax) class label. -/
structure Pipeline where
  predict_proba : String → List ℚ
  predict : String → String

/-- `IntentClassifier`: the `pipeline` attribute may be missing when no
model could be loaded or trained. -/
structure IntentClassifier where
  pipeline : Option Pipeline

/-- `np.max` over a probability row (errors on an empty row as numpy
does). -/
def listMaxQ : List ℚ → Option ℚ
  | [] => none
  | x :: xs => some (xs.foldl max x)

/-- `IntentClassifier.predict`: raise ValueError without a model; return
the predicted class when the maximum probability exceeds 0.4, the
sentinel "unknown" otherwise. -/
def IntentClassifier.predict (c : IntentClassifier) (text : String) :
    Except PyErr String :=
  match c.pipeline with
  | none =>
      .error (.valueError
        "No model available for prediction. Please train or load a model first.")
  | some pl =>
      match listMaxQ (pl.predict_proba text) with
      | none => .error (.valueError "zero-size array to reduction operation")
      | some max_confidence =>
          if max_confidence > 2/5 then .ok (pl.predict text)
          else .ok "unknown"

/-! ## External collaborators bundled as the environment -/

/-- `BookingInfo` as consumed by the core (`booking.reference` is the
only field the transaction reads). -/
structure BookingInfo where
  reference : String
  deriving DecidableEq, Repr

/-- External collaborators and ambient facts: the current date
(`date.today()`), the password hash (`hashlib.sha256`), the shared
trained classifier, the database-backed flight search
(`FlightService.search_flights`) and booking creation
(`BookingService.create_booking`, taking the raw context values). -/
structure Env where
  today : DateD
  hash : String → String
  classifier : IntentClassifier
  search_flights : String → String → DateD → Option DateD → Nat →
    Except PyErr (List Trip)
  create_booking : Option Trip → Nat → Option String → Except PyErr BookingInfo

/-! ## transactions/booking.py -/

/-- `BookingStates`. -/
inductive BookingStates
  | INIT
  | ORIGIN
  | DESTINATION
  | OUTBOUND_DATE
  | RETURN_DATE
  | TRAVEL_CLASS
  | FLIGHT_SELECTION
  | CONFIRMATION
  | COMPLETE
  deriving DecidableEq, Repr

/-- The booking context dictionary initialised in
`BookingTransaction.__init__` (cleared context = this default). -/
structure BookingCtx where
  origin : Option String := none
  destination : Option String := none
  outbound_date : Option DateD := none
  return_date : Option DateD := none
  travel_class : Option String := none
  trip_type : Option String := none
  available_trips : List Trip := []
  selected_trip : Option Trip := none
  price : Option ℚ := none
  deriving DecidableEq, Repr

/-- `BookingTransaction`: state machine state, context, and the base
transaction fields (auth sub-flow and pause flag). -/
structure BookingTransaction where
  state : BookingStates := .INIT
  context : BookingCtx := {}
  auth_flow : Option AuthFlow := none
  paused_for_auth : Bool := false
  deriving DecidableEq, Repr

namespace BookingTransaction

/-- `BookingTransaction.VALID_CLASSES`. -/
def VALID_CLASSES : List String := ["FIRST", "BUSINESS", "ECONOMY"]

/-- `BookingTransaction.MAX_FLIGHTS`. -/
def MAX_FLIGHTS : Nat := 5

/-- `BookingTransaction.requires_auth`: true exactly at CONFIRMATION. -/
def requires_auth (t : BookingTransaction) : Bool :=
  t.state = BookingStates.CONFIRMATION

/-- `BookingTransaction.is_complete`. -/
def is_complete (t : BookingTransaction) : Bool :=
  t.state = BookingStates.COMPLETE

/-- `BaseTransaction.cleanup`: clear the context, drop the auth
sub-flow, reset the pause flag (the state field is not touched). -/
def cleanup (t : BookingTransaction) : BookingTransaction :=
  { state := t.state, context := {}, auth_flow := none,
    paused_for_auth := false }

/-- One table row for the one-way layout of `_format_flight_table`. -/
def onewayRow (travel_class : String) (idx : Nat) (trip : Trip) :
    Except PyErr String := do
  let flight := trip.outbound_flight
  let price ←
    match dictGet trip.get_all_class_prices travel_class with
    | some p => Except.ok p
    | none => Except.error (.keyError travel_class)
  Except.ok ("| " ++ padRight 5 ("#" ++ toString idx) ++ " | " ++
    padRight 10 flight.origin_code ++ " | " ++
    padRight 10 flight.destination_code ++ " | " ++
    padRight 10 (dateStr flight.departure_date) ++ " | " ++
    padRight 6 (timeStr flight.departure_time) ++ " | £" ++
    padLeft 9 (decStr price) ++ " |")

/-- One table row for the round-trip layout of `_format_flight_table`
(accessing a missing return flight raises, as `None.origin_code`
does). -/
def roundtripRow (travel_class : String) (idx : Nat) (trip : Trip) :
    Except PyErr String := do
  let outbound := trip.outbound_flight
  let return_flight ←
    match trip.return_flight with
    | some rf => Except.ok rf
    | none => Except.error (.attributeError "NoneType has no attribute origin_code")
  let price ←
    match dictGet trip.get_all_class_prices travel_class with
    | some p => Except.ok p
    | none => Except.error (.keyError travel_class)
  Except.ok ("| " ++ padRight 5 ("#" ++ toString idx) ++ " | " ++
    padRight 10 (outbound.origin_code ++ "-" ++ outbound.destination_code) ++ " | " ++
    padRight 10 (return_flight.origin_code ++ "-" ++ return_flight.destination_code) ++ " | " ++
    padRight 10 (dateStr outbound.departure_date) ++ " | " ++
    padRight 10 (dateStr return_flight.departure_date) ++ " | £" ++
    padLeft 9 (decStr price) ++ " |")

/-- `BookingTransaction._format_flight_table`. -/
def format_flight_table (trip_type : Option String) (trips : List Trip)
    (travel_class : String) : Except PyErr String := do
  if trip_type = some "ONEWAY" then
    let separator :=
      "+-------+------------+------------+------------+--------+-------------+"
    let header := "| " ++ padRight 5 "Option" ++ " | " ++
      padRight 10 "Departure" ++ " | " ++ padRight 10 "Arrival" ++ " | " ++
      padRight 10 "Date" ++ " | " ++ padRight 6 "Time" ++ " | " ++
      padRight 11 ("Price (" ++ travel_class ++ ")") ++ " |"
    let rows ← trips.enum.mapM
      (fun p => onewayRow travel_class (p.1 + 1) p.2)
    let body := (rows.map (fun r => [r, separator])).flatten
    Except.ok (String.intercalate "\n" ([separator, header, separator] ++ body))
  else
    let separator :=
      "+-------+------------+------------+------------+------------+-------------+"
    let header := "| " ++ padRight 5 "Option" ++ " | " ++
      padRight 10 "Outbound" ++ " | " ++ padRight 10 "Return" ++ " | " ++
      padRight 10 "Out Date" ++ " | " ++ padRight 10 "Ret Date" ++ " | " ++
      padRight 11 ("Price (" ++ travel_class ++ ")") ++ " |"
    let rows ← trips.enum.mapM
      (fun p => roundtripRow travel_class (p.1 + 1) p.2)
    let body := (rows.map (fun r => [r, separator])).flatten
    Except.ok (String.intercalate "\n" ([separator, header, separator] ++ body))

/-- The summary list built in `_get_booking_summary` before joining. -/
def get_booking_summary_lines (t : BookingTransaction) : List String :=
  (["Here\x27s a summary of your booking:",
    "From: " ++ pyOptStr t.context.origin,
    "To: " ++ pyOptStr t.context.destination,
    "Date: " ++ pyOptDateStr t.context.outbound_date]
  ++ (match t.context.return_date with
      | some rd => ["Return: " ++ dateStr rd]
      | none => []))
  ++ ["Class: " ++ pyOptStr t.context.travel_class,
      "Total Price: £" ++ pyOptDecStr t.context.price,
      "",
      "Would you like to proceed with this booking?"]

/-- `BookingTransaction._get_booking_summary`. -/
def get_booking_summary (t : BookingTransaction) : String :=
  String.intercalate "\n" t.get_booking_summary_lines

/-- `_handle_init`: trip-type keyword scan, advance to ORIGIN. -/
def handle_init (t : BookingTransaction) (message : String) :
    BookingTransaction × String :=
  let trip_type := if pyContains (pyLower message) "round" then "ROUNDTRIP" else "ONEWAY"
  ({ t with context.trip_type := some trip_type, state := .ORIGIN },
    "Please enter your departure city:")

/-- `_handle_origin`. -/
def handle_origin (t : BookingTransaction) (message : String) :
    BookingTransaction × String :=
  ({ t with context.origin := some message, state := .DESTINATION },
    "Please enter your destination city:")

/-- `_handle_destination`. -/
def handle_destination (t : BookingTransaction) (message : String) :
    BookingTransaction × String :=
  ({ t with context.destination := some message, state := .OUTBOUND_DATE },
    "Please enter your outbound date (YYYY-MM-DD):")

/-- `_handle_outbound_date`: parse, reject past dates, branch on trip
type. -/
def handle_outbound_date (env : Env) (t : BookingTransaction)
    (message : String) : BookingTransaction × String :=
  match parseDate message with
  | none => (t, "Invalid date format. Please use YYYY-MM-DD format:")
  | some outbound_date =>
      if dateLt outbound_date env.today then
        (t, "Date cannot be in the past. Please enter a future date (YYYY-MM-DD):")
      else
        let t := { t with context.outbound_date := some outbound_date }
        if t.context.trip_type = some "ROUNDTRIP" then
          ({ t with state := .RETURN_DATE },
            "Please enter your return date (YYYY-MM-DD):")
        else
          ({ t with state := .TRAVEL_CLASS },
            "Please select your travel class (ECONOMY/BUSINESS/FIRST):")

/-- `_handle_return_date`: parse, reject a return before the outbound
date (comparing against a missing outbound date raises, as comparing
a date with None does). -/
def handle_return_date (t : BookingTransaction) (message : String) :
    Except PyErr (BookingTransaction × String) :=
  match parseDate message with
  | none => .ok (t, "Invalid date format. Please use YYYY-MM-DD format:")
  | some return_date =>
      match t.context.outbound_date with
      | none => .error (.typeError "comparison of date and NoneType")
      | some od =>
          if dateLt return_date od then
            .ok (t, "Return date must be after outbound date. Please enter a valid date (YYYY-MM-DD):")
          else
            .ok ({ t with context.return_date := some return_date, state := .TRAVEL_CLASS },
              "Please select your travel class (ECONOMY/BUSINESS/FIRST):")

/-- `_handle_travel_class`: validate the class, search flights (the
whole body runs in a try whose except terminates the transaction),
store the results, render the table and advance to FLIGHT_SELECTION. -/
def handle_travel_class (env : Env) (t : BookingTransaction)
    (message : String) : BookingTransaction × String :=
  let travel_class := pyUpper message
  if ¬ (VALID_CLASSES.contains travel_class) then
    (t, "Invalid travel class. Please select ECONOMY, BUSINESS, or FIRST:")
  else
    let attempt : Except PyErr (BookingTransaction × String) := do
      let trips ←
        match t.context.origin, t.context.destination, t.context.outbound_date with
        | some o, some d, some od =>
            env.search_flights o d od t.context.return_date MAX_FLIGHTS
        | _, _, _ =>
            Except.error (.attributeError "NoneType has no attribute lower")
      if trips = [] then
        Except.ok ({ t with state := .COMPLETE },
          "Sorry, no flights found for your criteria. Please start a new booking.")
      else
        let t := { t with context.travel_class := some travel_class, context.available_trips := trips }
        let table ← format_flight_table t.context.trip_type trips travel_class
        Except.ok ({ t with state := .FLIGHT_SELECTION },
          "Here are the available flights:\n\n" ++ table ++
            "\n\nPlease select a flight by entering its number (1-" ++
            toString trips.length ++ "):")
    match attempt with
    | .ok r => r
    | .error _ =>
        ({ t with state := .COMPLETE },
          "Sorry, we encountered an error while searching flights. Please start a new booking.")

/-- `_handle_flight_selection`: 1-based index into the stored candidate
list; invalid input re-prompts, a valid index snapshots the trip and
its price for the stored class and advances to CONFIRMATION. -/
def handle_flight_selection (t : BookingTransaction) (message : String) :
    Except PyErr (BookingTransaction × String) :=
  match pyInt message with
  | none => .ok (t, "Please enter a valid number for your flight selection:")
  | some selection =>
      if 1 ≤ selection ∧ selection ≤ (t.context.available_trips.length : Int) then
        match t.context.available_trips.get? (selection - 1).toNat with
        | none => .error (.indexError "list index out of range")
        | some selected_trip =>
            let prices := selected_trip.get_all_class_prices
            let price :=
              match t.context.travel_class with
              | some c => dictGet prices c
              | none => none
            let t' := { t with context.selected_trip := some selected_trip, context.price := price, state := .CONFIRMATION }
            .ok (t', t'.get_booking_summary)
      else
        .ok (t, "Invalid selection. Please choose a number between 1 and " ++
          toString t.context.available_trips.length ++ ":")

/-- `_handle_confirmation`: classify the reply (an unavailable model
raises out of this handler); "confirmation" books (its try converts
collaborator failures, including a missing authenticated user, into an
apology), "cancellation" cancels, anything else re-prompts. -/
def handle_confirmation (env : Env) (a : AuthSvc) (t : BookingTransaction)
    (message : String) : Except PyErr (BookingTransaction × String) := do
  let intent ← env.classifier.predict message
  if intent = "confirmation" then
    let attempt : Except PyErr BookingInfo := do
      let uid ←
        match a.current_user with
        | some u => Except.ok u.id
        | none => Except.error (.attributeError "NoneType has no attribute id")
      env.create_booking t.context.selected_trip uid t.context.travel_class
    match attempt with
    | .ok booking =>
        .ok ({ t with state := .COMPLETE },
          "Great! Your booking is confirmed. Your reference number is: " ++
            booking.reference)
    | .error _ =>
        .ok ({ t with state := .COMPLETE },
          "I apologize, but I couldn\x27t complete your booking. Please try again.")
  else if intent = "cancellation" then
    .ok ({ t with state := .COMPLETE },
      "I\x27ve cancelled your booking request. Feel free to start a new booking when you\x27re ready.")
  else
    .ok (t, "I\x27m not sure if you want to confirm or cancel the booking. Please let me know clearly - would you like to proceed with this booking?")

/-- The `handlers` dictionary lookup of `_process_internal` together
with the chosen handler's outcome: none when the state has no handler
(COMPLETE), otherwise the handler result with any escaped exception. -/
def handlers_result (env : Env) (a : AuthSvc) (t : BookingTransaction)
    (message : String) : Option (Except PyErr (BookingTransaction × String)) :=
  match t.state with
  | .INIT => some (.ok (t.handle_init message))
  | .ORIGIN => some (.ok (t.handle_origin message))
  | .DESTINATION => some (.ok (t.handle_destination message))
  | .OUTBOUND_DATE => some (.ok (handle_outbound_date env t message))
  | .RETURN_DATE => some (t.handle_return_date message)
  | .TRAVEL_CLASS => some (.ok (handle_travel_class env t message))
  | .FLIGHT_SELECTION => some (t.handle_flight_selection message)
  | .CONFIRMATION => some (handle_confirmation env a t message)
  | .COMPLETE => none

/-- `BookingTransaction._process_internal`: dispatch to the handler for
the current state; an exception escaping the handler is caught at this
boundary, the transaction is forced to COMPLETE and a generic message
returned; a state without a handler yields the fallback message. -/
def process_internal (env : Env) (a : AuthSvc) (t : BookingTransaction)
    (message : String) : BookingTransaction × String :=
  match handlers_result env a t message with
  | some (.ok r) => r
  | some (.error _) =>
      ({ t with state := .COMPLETE },
        "Sorry, something went wrong. Please start a new booking.")
  | none => (t, "An error occurred in the booking process.")

/-- `BaseTransaction.check_and_handle_auth` as run by the booking
transaction: nothing to do unless `requires_auth` holds and the user is
unauthenticated; create the sub-flow on first encounter, otherwise feed
the message to it, discarding it when it completes. -/
def check_and_handle_auth (env : Env) (a : AuthSvc) (t : BookingTransaction)
    (message : String) : BookingTransaction × AuthSvc × Option String :=
  if ¬ t.requires_auth then (t, a, none)
  else if ¬ a.is_authenticated then
    match t.auth_flow with
    | none =>
        ({ t with auth_flow := some AuthFlow.init, paused_for_auth := true }, a,
          some "You need to be logged in first. Would you like to login or register?")
    | some f =>
        let (f', a', response) := AuthFlow.process env.hash a f message
        if f'.is_complete then
          ({ t with auth_flow := none, paused_for_auth := false }, a', some response)
        else
          ({ t with auth_flow := some f' }, a', some response)
  else (t, a, none)

/-- `BookingTransaction.process`: auth check first (a truthy auth
response is returned as-is), then the internal state machine. -/
def process (env : Env) (a : AuthSvc) (t : BookingTransaction)
    (message : String) : BookingTransaction × AuthSvc × String :=
  let (t1, a1, auth_response) := check_and_handle_auth env a t message
  match auth_response with
  | some r =>
      if r ≠ "" then (t1, a1, r)
      else
        let (t2, r2) := process_internal env a1 t1 message
        (t2, a1, r2)
  | none =>
      let (t2, r2) := process_internal env a1 t1 message
      (t2, a1, r2)

end BookingTransaction

/-! ## transactions/status.py -/

/-- `StatusTransaction`: the context holds one `booking_ref` entry,
plus the base transaction fields. -/
structure StatusTransaction where
  booking_ref : Option String := none
  auth_flow : Option AuthFlow := none
  paused_for_auth : Bool := false
  deriving DecidableEq, Repr

namespace StatusTransaction

/-- `StatusTransaction.process` (overrides the base `process` outright:
no auth check). -/
def process (t : StatusTransaction) (message : String) :
    StatusTransaction × String :=
  if ¬ pyTruthyOptStr t.booking_ref then
    ({ t with booking_ref := some message },
      "Processing status for booking: " ++ message)
  else (t, "Status check complete")

/-- `StatusTransaction.is_complete`: `bool(context.get(booking_ref))`. -/
def is_complete (t : StatusTransaction) : Bool := pyTruthyOptStr t.booking_ref

/-- `BaseTransaction.cleanup` for the status variant. -/
def cleanup (_t : StatusTransaction) : StatusTransaction :=
  { booking_ref := none, auth_flow := none, paused_for_auth := false }

end StatusTransaction

/-! ## transactions/factory.py and main.py -/

/-- The closed set of transactions the factory can build. -/
inductive Transaction
  | booking (t : BookingTransaction)
  | status (t : StatusTransaction)
  deriving DecidableEq, Repr

namespace Transaction

/-- Per-variant `process` (status transactions use no collaborator
state). -/
def process (env : Env) (a : AuthSvc) (t : Transaction) (message : String) :
    Transaction × AuthSvc × String :=
  match t with
  | .booking b =>
      let (b', a', r) := BookingTransaction.process env a b message
      (.booking b', a', r)
  | .status s =>
      let (s', r) := s.process message
      (.status s', a, r)

/-- Per-variant `is_complete`. -/
def is_complete : Transaction → Bool
  | .booking b => b.is_complete
  | .status s => s.is_complete

/-- Per-variant `cleanup`. -/
def cleanup : Transaction → Transaction
  | .booking b => .booking b.cleanup
  | .status s => .status s.cleanup

end Transaction

/-- `TransactionFactory.create_transaction`: dictionary lookup from the
intent label to a freshly constructed transaction, none for unknown
labels. -/
def TransactionFactory.create_transaction (intent : String) :
    Option Transaction :=
  if intent = "booking" then some (.booking {})
  else if intent = "status" then some (.status {})
  else none

/-- Observable controller events, recorded so that claims about when
`cleanup()` is invoked can be stated over the pure embedding. -/
inductive Event
  | cleanupCall
  deriving DecidableEq, Repr

/-- `FlightBookingChatbot` state: the shared auth service and the single
active-transaction slot. -/
structure FlightBookingChatbot where
  auth_service : AuthSvc := { users := [] }
  current_transaction : Option Transaction := none
  deriving DecidableEq, Repr

namespace FlightBookingChatbot

/-- `FlightBookingChatbot._get_intent`: classify, turning a ValueError
into "unknown" (predict only ever raises ValueError, see
`predict_error_is_valueError`). -/
def get_intent (env : Env) (message : String) : String :=
  match env.classifier.predict message with
  | .ok intent => intent
  | .error _ => "unknown"

/-- `FlightBookingChatbot._handle_unknown_intent`. -/
def handle_unknown_intent : String :=
  "I\x27m not sure I understand. Could you please rephrase that?"

/-- The fall-through half of `process_message` (lines 38-46): classify,
build a transaction, store it and feed it the same message; with no
constructible transaction return the fixed clarification. -/
def classify_and_create (env : Env) (cb : FlightBookingChatbot)
    (message : String) : FlightBookingChatbot × String × List Event :=
  let intent := get_intent env message
  match TransactionFactory.create_transaction intent with
  | some transaction =>
      let (t', a', response) :=
        Transaction.process env cb.auth_service transaction message
      ({ auth_service := a', current_transaction := some t' }, response, [])
  | none => (cb, handle_unknown_intent, [])

/-- `FlightBookingChatbot.process_message`: forward to an active
incomplete transaction (running `cleanup` and clearing the slot if it
just completed, recorded as a `cleanupCall` event), otherwise classify
and create. -/
def process_message (env : Env) (cb : FlightBookingChatbot)
    (message : String) : FlightBookingChatbot × String × List Event :=
  match cb.current_transaction with
  | some t =>
      if ¬ t.is_complete then
        let (t', a', response) := Transaction.process env cb.auth_service t message
        if t'.is_complete then
          let _ := t'.cleanup
          ({ auth_service := a', current_transaction := none }, response,
            [Event.cleanupCall])
        else
          ({ auth_service := a', current_transaction := some t' }, response, [])
      else classify_and_create env cb message
  | none => classify_and_create env cb message

end FlightBookingChatbot

/-! ## Concrete fixtures used by witnesses and counterexamples -/

/-- A baseline environment: empty flight inventory, no trained
classifier model, booking collaborator down. -/
def env0 : Env where
  today := ⟨2026, 1, 1⟩
  hash := fun s => s ++ "#"
  classifier := ⟨none⟩
  search_flights := fun _ _ _ _ _ => .ok []
  create_booking := fun _ _ _ => .error (.serviceError "unavailable")

/-- An environment whose classifier confidently labels everything
"status". -/
def envStatus : Env :=
  { env0 with classifier := ⟨some ⟨fun _ => [1], fun _ => "status"⟩⟩ }

/-- A registered user (password stored under `env0`'s hash). -/
def u0 : UserRec := { id := 7, name := "Ada", email := "a@b.c", password := "pw#" }

/-- Auth service with `u0` logged in. -/
def auth1 : AuthSvc := { users := [u0], currentUser := some u0 }

/-- Auth service with `u0` registered but nobody logged in. -/
def auth0 : AuthSvc := { users := [u0] }

/-- A concrete one-way flight. -/
def fl100 : FlightInfo where
  id := 1
  origin_base := "LON"
  origin_location := "London"
  origin_code := "LHR"
  departure_date := ⟨2099, 1, 10⟩
  departure_time := (9, 30)
  destination_base := "PAR"
  destination_location := "Paris"
  destination_code := "CDG"
  status := "SCHEDULED"
  base_price := 100

/-- A one-way trip with base price 100. -/
def trip100 : Trip := { trip_type := .ONEWAY, outbound_flight := fl100 }

/-- A one-way trip with the tiny base price 0.01. -/
def tripTiny : Trip :=
  { trip_type := .ONEWAY, outbound_flight := { fl100 with base_price := 1/100 } }

/-- A booking transaction sitting at CONFIRMATION with no sub-flow. -/
def txConf : BookingTransaction := { state := .CONFIRMATION }

/-- An auth sub-flow at AWAITING_PASSWORD for a login. -/
def flowPw : AuthFlow :=
  { state := .AWAITING_PASSWORD, action := some "login", email := some "x@y.z" }

/-- An auth sub-flow at AWAITING_NAME for a registration whose email is
already taken, so the register call fails. -/
def flowReg : AuthFlow where
  state := .AWAITING_NAME
  action := some "register"
  email := some "a@b.c"
  password := some "pw2"
  name := none

/-- The chatbot state after the status transaction absorbed "REF12" as
its first message. -/
def cbAfterStatus : FlightBookingChatbot where
  auth_service := { users := [] }
  current_transaction := some (.status { booking_ref := some "REF12" })

/-- A chatbot holding a fresh (incomplete) status transaction. -/
def cbStatus : FlightBookingChatbot where
  auth_service := { users := [] }
  current_transaction := some (.status {})

/-- A booking transaction at FLIGHT_SELECTION holding one candidate
trip with stored class ECONOMY. -/
def txSel : BookingTransaction where
  state := .FLIGHT_SELECTION
  context := { travel_class := some "ECONOMY", available_trips := [trip100] }

/-- `txSel` after selecting candidate 1. -/
def txSelAfter : BookingTransaction :=
  { txSel with context.selected_trip := some trip100, context.price := dictGet trip100.get_all_class_prices "ECONOMY", state := BookingStates.CONFIRMATION }

/-- A booking transaction at OUTBOUND_DATE for a one-way trip. -/
def txOut : BookingTransaction where
  state := .OUTBOUND_DATE
  context := { trip_type := some "ONEWAY" }

/-! ## Helper lemmas -/

/-- Appending a nonempty string yields a nonempty string. -/
theorem append_right_ne (a b : String) (hb : b ≠ "") : a ++ b ≠ "" := by
  intro h
  apply hb
  have h2 : (a ++ b).data = "".data := congrArg String.data h
  rw [String.data_append] at h2
  exact String.ext (List.append_eq_nil.mp h2).2

/-- `IntentClassifier.predict` only ever raises ValueError, so the
`except ValueError` in `_get_intent` catches every failure. -/
theorem predict_error_is_valueError (c : IntentClassifier) (text : String)
    (e : PyErr) (h : c.predict text = .error e) : ∃ m, e = .valueError m := by
  unfold IntentClassifier.predict at h
  rcases hp : c.pipeline with _ | pl <;> rw [hp] at h <;> simp only at h
  · exact ⟨_, by injection h with h2; exact h2.symm⟩
  · rcases hm : listMaxQ (pl.predict_proba text) with _ | mx <;> rw [hm] at h <;>
      simp only at h
    · exact ⟨_, by injection h with h2; exact h2.symm⟩
    · split at h <;> simp at h

/-- Every response produced by a step of the auth sub-flow is a nonempty
string, so `if auth_response:` in the parent transaction never falls
through to the internal handler while the sub-flow is running. -/
theorem authflow_response_ne (hash : String → String) (a : AuthSvc)
    (f : AuthFlow) (msg : String) :
    (AuthFlow.process hash a f msg).2.2 ≠ "" := by
  obtain ⟨st, ac, em, pw, nm⟩ := f
  rcases st
  case INIT =>
    dsimp [AuthFlow.process, AuthFlow.handle_init]
    split <;> simp
  case AWAITING_EMAIL =>
    dsimp [AuthFlow.process, AuthFlow.handle_email]
    decide
  case AWAITING_PASSWORD =>
    dsimp [AuthFlow.process, AuthFlow.handle_password]
    split
    · split
      · exact append_right_ne _ _ (by decide)
      · exact append_right_ne _ _ (by decide)
    · simp
  case AWAITING_NAME =>
    dsimp [AuthFlow.process, AuthFlow.handle_name]
    split <;> exact append_right_ne _ _ (by decide)
  case COMPLETE =>
    dsimp [AuthFlow.process]
    decide

/-- Lower bound of half-even rounding. -/
theorem rndHE_ge_floor (q : ℚ) : ⌊q⌋ ≤ rndHE q := by
  unfold rndHE
  dsimp only
  split_ifs <;> omega

/-- Upper bound of half-even rounding. -/
theorem rndHE_le_floor_add_one (q : ℚ) : rndHE q ≤ ⌊q⌋ + 1 := by
  unfold rndHE
  dsimp only
  split_ifs <;> omega

/-- Half-even rounding is monotone. -/
theorem rndHE_mono {x y : ℚ} (h : x ≤ y) : rndHE x ≤ rndHE y := by
  rcases lt_or_le (⌊x⌋) (⌊y⌋) with hf | hf
  · calc rndHE x ≤ ⌊x⌋ + 1 := rndHE_le_floor_add_one x
    _ ≤ ⌊y⌋ := by omega
    _ ≤ rndHE y := rndHE_ge_floor y
  · have hfe : ⌊x⌋ = ⌊y⌋ := le_antisymm (Int.floor_le_floor h) hf
    unfold rndHE
    dsimp only
    rw [hfe]
    have hr : x - (⌊y⌋ : ℚ) ≤ y - (⌊y⌋ : ℚ) := by linarith
    split_ifs with h1 h2 h3 h4 h5 h6 h7 <;> try omega
    all_goals (exfalso; rw [hfe] at *; try linarith)

/-- Two-decimal half-even rounding is monotone. -/
theorem rndHE2_mono {x y : ℚ} (h : x ≤ y) : rndHE2 x ≤ rndHE2 y := by
  unfold rndHE2
  have h1 := rndHE_mono (by linarith : x * 100 ≤ y * 100)
  have h2 : ((rndHE (x * 100) : ℚ)) ≤ ((rndHE (y * 100) : ℚ)) := by
    exact_mod_cast h1
  linarith

/-! ## Claim theorems -/

/-- C1: a booking transaction at CONFIRMATION with an unauthenticated
auth service (a) on the first `process` call creates the auth sub-flow
and returns the login/register prompt without running the confirmation
handler; (b) while the sub-flow is incomplete every `process` call is
handled entirely by the sub-flow, leaving the booking state machine at
CONFIRMATION with its context untouched, and on the call in which the
sub-flow completes its completion message is returned as-is with the
sub-flow discarded; the confirmation handler runs only from the next
call onward (once authenticated, `process` is exactly the internal
dispatch); and `requires_auth` holds exactly at CONFIRMATION. -/
theorem C1_confirmation_auth_gate (env : Env) (a : AuthSvc)
    (t : BookingTransaction) (msg : String)
    (hs : t.state = BookingStates.CONFIRMATION)
    (hu : a.currentUser = none) :
    (t.auth_flow = none →
      BookingTransaction.process env a t msg =
        ({ t with auth_flow := some AuthFlow.init, paused_for_auth := true }, a,
          "You need to be logged in first. Would you like to login or register?"))
    ∧ (∀ f, t.auth_flow = some f → f.is_complete = false →
        ((AuthFlow.process env.hash a f msg).1.is_complete = false →
          BookingTransaction.process env a t msg =
            ({ t with auth_flow := some (AuthFlow.process env.hash a f msg).1 },
              (AuthFlow.process env.hash a f msg).2.1,
              (AuthFlow.process env.hash a f msg).2.2))
        ∧ ((AuthFlow.process env.hash a f msg).1.is_complete = true →
          BookingTransaction.process env a t msg =
            ({ t with auth_flow := none, paused_for_auth := false },
              (AuthFlow.process env.hash a f msg).2.1,
              (AuthFlow.process env.hash a f msg).2.2)))
    ∧ BookingTransaction.requires_auth t = true
    ∧ (∀ t2 : BookingTransaction,
        (BookingTransaction.requires_auth t2 = true ↔
          t2.state = BookingStates.CONFIRMATION))
    ∧ (∀ a2 : AuthSvc, a2.is_authenticated = true →
        ∀ t2 : BookingTransaction, t2.state = BookingStates.CONFIRMATION →
        ∀ m2, BookingTransaction.process env a2 t2 m2 =
          ((BookingTransaction.process_internal env a2 t2 m2).1, a2,
            (BookingTransaction.process_internal env a2 t2 m2).2)) := by
  have hra : t.requires_auth = true := by
    simp [BookingTransaction.requires_auth, hs]
  have hau : a.is_authenticated = false := by
    simp [AuthSvc.is_authenticated, hu]
  refine ⟨?_, ?_, hra, ?_, ?_⟩
  · intro hn
    unfold BookingTransaction.process BookingTransaction.check_and_handle_auth
    rw [hra, hau, hn]
    simp
  · intro f hf hfc
    have hne := authflow_response_ne env.hash a f msg
    rcases hP : AuthFlow.process env.hash a f msg with ⟨f2, a2, r⟩
    rw [hP] at hne
    dsimp only at hne ⊢
    constructor
    · intro hdone
      unfold BookingTransaction.process BookingTransaction.check_and_handle_auth
      rw [hra, hau, hf]
      simp [hP, hdone, hne]
    · intro hdone
      unfold BookingTransaction.process BookingTransaction.check_and_handle_auth
      rw [hra, hau, hf]
      simp [hP, hdone, hne]
  · intro t2
    simp [BookingTransaction.requires_auth]
  · intro a2 ha2 t2 hs2 m2
    unfold BookingTransaction.process BookingTransaction.check_and_handle_auth
    have hra2 : t2.requires_auth = true := by
      simp [BookingTransaction.requires_auth, hs2]
    rw [hra2, ha2]
    simp

/-- C1 witness: at the concrete fixtures, the first CONFIRMATION call
while logged out yields the login/register prompt and installs the
sub-flow. -/
theorem C1_confirmation_auth_gate_witness :
    BookingTransaction.process env0 auth0 txConf "yes" =
      ({ txConf with auth_flow := some AuthFlow.init, paused_for_auth := true },
        auth0,
        "You need to be logged in first. Would you like to login or register?") :=
  (C1_confirmation_auth_gate env0 auth0 txConf "yes" rfl rfl).1 rfl

/-- C2: evaluating the code at the failing input: a failed login at
AWAITING_PASSWORD leaves the flow state at AWAITING_PASSWORD (the
source sets no state on that branch, unlike the register-failure
branch) even though the surfaced message re-prompts for the email; the
action stays "login". The claim and spec say the flow transitions back
to AWAITING_EMAIL, which the register-failure branch does and this
branch does not. -/
theorem C2_login_failure_behavior_at_code :
    (AuthFlow.process env0.hash auth0 flowPw "wrongpw").1.state =
      AuthFlowStates.AWAITING_PASSWORD
    ∧ (AuthFlow.process env0.hash auth0 flowPw "wrongpw").1.state ≠
      AuthFlowStates.AWAITING_EMAIL
    ∧ (AuthFlow.process env0.hash auth0 flowPw "wrongpw").2.2 =
      "Invalid email or password\nPlease try again with your email:"
    ∧ (AuthFlow.process env0.hash auth0 flowPw "wrongpw").1.action = some "login"
    ∧ (AuthFlow.handle_name env0.hash auth1 flowReg "Ada").1.state =
      AuthFlowStates.AWAITING_EMAIL := by
  refine ⟨rfl, by decide, rfl, rfl, rfl⟩

/-- C5: whenever the handler chosen for the current state raises, the
dispatch boundary of `_process_internal` catches it, forces the
terminal COMPLETE state and returns the generic start-over response, so
the transaction is never left in a non-terminal state after an internal
fault. -/
theorem C5_dispatch_catches_handler_errors (env : Env) (a : AuthSvc)
    (t : BookingTransaction) (msg : String) (e : PyErr)
    (hh : BookingTransaction.handlers_result env a t msg =
      some (Except.error e)) :
    BookingTransaction.process_internal env a t msg =
      ({ t with state := BookingStates.COMPLETE },
        "Sorry, something went wrong. Please start a new booking.")
    ∧ ({ t with state := BookingStates.COMPLETE } :
        BookingTransaction).is_complete = true := by
  constructor
  · unfold BookingTransaction.process_internal
    rw [hh]
  · simp [BookingTransaction.is_complete]

/-- C5 witness: at CONFIRMATION with no trained model the handler
raises; the dispatch converts this into COMPLETE plus the generic
message. -/
theorem C5_dispatch_catches_handler_errors_witness :
    BookingTransaction.process_internal env0 auth1 txConf "yes" =
      ({ txConf with state := BookingStates.COMPLETE },
        "Sorry, something went wrong. Please start a new booking.") :=
  (C5_dispatch_catches_handler_errors env0 auth1 txConf "yes"
    (.valueError
      "No model available for prediction. Please train or load a model first.")
    rfl).1

/-- C8: with a trained pipeline, `predict` returns the sentinel
"unknown" whenever the maximum class probability is at most 0.4,
regardless of the predicted class, and returns the pipeline's predicted
(argmax) class label whenever it is strictly greater. -/
theorem C8_confidence_threshold (pl : Pipeline) (text : String) (m : ℚ)
    (hm : listMaxQ (pl.predict_proba text) = some m) :
    (m ≤ 2/5 → IntentClassifier.predict ⟨some pl⟩ text = .ok "unknown")
    ∧ (2/5 < m → IntentClassifier.predict ⟨some pl⟩ text = .ok (pl.predict text))
    ∧ (∀ lbl, 2/5 < m → pl.predict text = lbl →
        IntentClassifier.predict ⟨some pl⟩ text = .ok lbl) := by
  unfold IntentClassifier.predict
  simp only
  rw [hm]
  simp only
  refine ⟨?_, ?_, ?_⟩
  · intro h
    rw [if_neg (not_lt.mpr h)]
  · intro h
    rw [if_pos h]
  · intro lbl h hl
    rw [if_pos h, hl]

/-- C8 witness: a pipeline with probability row [0.3, 0.7] and argmax
label "booking" predicts "booking". -/
theorem C8_confidence_threshold_witness :
    IntentClassifier.predict
      ⟨some ⟨fun _ => [3/10, 7/10], fun _ => "booking"⟩⟩ "book a flight" =
      .ok "booking" :=
  (C8_confidence_threshold ⟨fun _ => [3/10, 7/10], fun _ => "booking"⟩
    "book a flight" (7/10) (by norm_num [listMaxQ])).2.2 "booking"
    (by norm_num) rfl

/-- C10 counterexample: a one-way trip with the strictly positive base
price 0.01 has FIRST and BUSINESS prices both rounding (half-even, two
decimals) to 0.02, so the claimed strict ordering FIRST > BUSINESS
fails. -/
theorem C10_strict_order_counterexample :
    tripTiny.outbound_flight.base_price > 0
    ∧ Trip.get_first_class_price tripTiny = 1/50
    ∧ Trip.get_business_class_price tripTiny = 1/50
    ∧ ¬ (Trip.get_first_class_price tripTiny >
          Trip.get_business_class_price tripTiny) := by
  have hb : tripTiny.calculate_base_trip_price = 1/100 := by
    norm_num [Trip.calculate_base_trip_price, tripTiny, fl100, TRIP_TYPE_RATES]
  have h1 : Trip.get_first_class_price tripTiny = 1/50 := by
    rw [Trip.get_first_class_price, hb]
    norm_num [rndHE2, rndHE]
  have h2 : Trip.get_business_class_price tripTiny = 1/50 := by
    rw [Trip.get_business_class_price, hb]
    norm_num [rndHE2, rndHE]
  refine ⟨by norm_num [tripTiny, fl100], h1, h2, by rw [h1, h2]; norm_num⟩

/-- C3 counterexample: a status transaction created by the first message
is complete after that very first call, yet the controller leaves it in
the active-transaction slot (not cleared) and records no cleanup
invocation, contradicting the claim that the slot is cleared and
`cleanup()` runs exactly once on the first call after which the
transaction reports complete. -/
theorem C3_first_turn_completion_counterexample :
    FlightBookingChatbot.process_message envStatus {} "REF12" =
      (cbAfterStatus, "Processing status for booking: REF12", [])
    ∧ cbAfterStatus.current_transaction ≠ none
    ∧ (Transaction.status { booking_ref := some "REF12" }).is_complete = true := by
  refine ⟨?_, by decide, by decide⟩
  have hpred : IntentClassifier.predict envStatus.classifier "REF12" =
      .ok "status" := by
    show IntentClassifier.predict
      ⟨some ⟨fun _ => [1], fun _ => "status"⟩⟩ "REF12" = .ok "status"
    unfold IntentClassifier.predict
    simp only [listMaxQ, List.foldl]
    rw [if_pos (by norm_num : (2:ℚ)/5 < 1)]
  have hgi : FlightBookingChatbot.get_intent envStatus "REF12" = "status" := by
    unfold FlightBookingChatbot.get_intent
    rw [hpred]
  unfold FlightBookingChatbot.process_message FlightBookingChatbot.classify_and_create
  simp only [hgi]
  rfl

/-- C3 amended: when a message is forwarded to an already-active,
not-yet-complete transaction and processing makes it complete, the
controller runs `cleanup` exactly once and clears the slot on that same
call. (A transaction that completes on the very first message, on the
creation path, is neither cleaned up nor removed that turn — see the
counterexample.) -/
theorem C3_forwarded_completion_cleanup (env : Env)
    (cb : FlightBookingChatbot) (t : Transaction) (msg : String)
    (hcur : cb.current_transaction = some t)
    (hinc : t.is_complete = false)
    (hdone : (Transaction.process env cb.auth_service t msg).1.is_complete = true) :
    FlightBookingChatbot.process_message env cb msg =
      ({ auth_service := (Transaction.process env cb.auth_service t msg).2.1, current_transaction := none },
        (Transaction.process env cb.auth_service t msg).2.2,
        [Event.cleanupCall]) := by
  rcases hP : Transaction.process env cb.auth_service t msg with ⟨t2, a2, r⟩
  rw [hP] at hdone
  dsimp only at hdone ⊢
  unfold FlightBookingChatbot.process_message
  rw [hcur]
  simp [hinc, hP, hdone]

/-- C3 witness: a status transaction already in the slot completes on
the forwarded message; the slot is cleared and exactly one cleanup is
recorded. -/
theorem C3_forwarded_completion_cleanup_witness :
    FlightBookingChatbot.process_message env0 cbStatus "REF" =
      ({ auth_service := { users := [] }, current_transaction := none },
        "Processing status for booking: REF", [Event.cleanupCall]) :=
  C3_forwarded_completion_cleanup env0 cbStatus (.status {}) "REF" rfl rfl rfl

/-- C4: when no active incomplete transaction exists (empty slot, or a
slot holding a completed transaction) and the classified intent is not
a key of the factory map, `process_message` returns the fixed
clarification string and the slot (indeed the whole chatbot state) is
unchanged. -/
theorem C4_unknown_intent_clarification (env : Env)
    (cb : FlightBookingChatbot) (msg : String)
    (hns : cb.current_transaction = none ∨
      ∃ t, cb.current_transaction = some t ∧ t.is_complete = true)
    (hb : FlightBookingChatbot.get_intent env msg ≠ "booking")
    (hst : FlightBookingChatbot.get_intent env msg ≠ "status") :
    FlightBookingChatbot.process_message env cb msg =
      (cb, "I\x27m not sure I understand. Could you please rephrase that?", []) := by
  have hfac : TransactionFactory.create_transaction
      (FlightBookingChatbot.get_intent env msg) = none := by
    unfold TransactionFactory.create_transaction
    rw [if_neg hb, if_neg hst]
  have hcc : FlightBookingChatbot.classify_and_create env cb msg =
      (cb, FlightBookingChatbot.handle_unknown_intent, []) := by
    unfold FlightBookingChatbot.classify_and_create
    dsimp only
    rw [hfac]
  rcases hns with h | ⟨t, ht, hc⟩
  · unfold FlightBookingChatbot.process_message
    rw [h]
    exact hcc
  · unfold FlightBookingChatbot.process_message
    rw [ht]
    simp only [hc, Bool.not_true, Bool.false_eq_true, if_false]
    exact hcc

/-- C4 witness: with no trained model the intent is "unknown"; on an
empty slot the controller answers with the clarification string and
creates nothing. -/
theorem C4_unknown_intent_clarification_witness :
    FlightBookingChatbot.process_message env0 {} "hello" =
      (({} : FlightBookingChatbot),
        "I\x27m not sure I understand. Could you please rephrase that?", []) :=
  C4_unknown_intent_clarification env0 {} "hello" (Or.inl rfl)
    (by decide) (by decide)

/-- C6: at FLIGHT_SELECTION with a non-empty stored candidate list, a
non-integer message re-prompts leaving state and context unchanged; an
integer outside 1..N re-prompts likewise; an integer k in 1..N stores
the k-th trip and its price for the stored travel class, moves to
CONFIRMATION and returns the booking summary, whose total-price line
shows exactly the `get_all_class_prices` entry for that class. -/
theorem C6_flight_selection (env : Env) (a : AuthSvc)
    (t : BookingTransaction) (msg : String)
    (hs : t.state = BookingStates.FLIGHT_SELECTION)
    (_hne : t.context.available_trips ≠ []) :
    (pyInt msg = none →
      BookingTransaction.process_internal env a t msg =
        (t, "Please enter a valid number for your flight selection:"))
    ∧ (∀ k : Int, pyInt msg = some k →
        ¬ (1 ≤ k ∧ k ≤ (t.context.available_trips.length : Int)) →
      BookingTransaction.process_internal env a t msg =
        (t, "Invalid selection. Please choose a number between 1 and " ++
          toString t.context.available_trips.length ++ ":"))
    ∧ (∀ (k : Int) (cls : String) (st : Trip), pyInt msg = some k →
        1 ≤ k → k ≤ (t.context.available_trips.length : Int) →
        t.context.travel_class = some cls →
        t.context.available_trips.get? (k - 1).toNat = some st →
        (BookingTransaction.process_internal env a t msg =
          ({ t with context.selected_trip := some st, context.price := dictGet st.get_all_class_prices cls, state := BookingStates.CONFIRMATION },
            BookingTransaction.get_booking_summary
              { t with context.selected_trip := some st, context.price := dictGet st.get_all_class_prices cls, state := BookingStates.CONFIRMATION })
        ∧ ∀ p, dictGet st.get_all_class_prices cls = some p →
            ("Total Price: £" ++ decStr p) ∈
              BookingTransaction.get_booking_summary_lines
                { t with context.selected_trip := some st, context.price := dictGet st.get_all_class_prices cls, state := BookingStates.CONFIRMATION })) := by
  unfold BookingTransaction.process_internal BookingTransaction.handlers_result
  rw [hs]
  simp only
  unfold BookingTransaction.handle_flight_selection
  refine ⟨?_, ?_, ?_⟩
  · intro hp
    rw [hp]
  · intro k hp hk
    rw [hp]
    simp only [if_neg hk]
  · intro k cls st hp hk1 hk2 hcls hget
    rw [hp]
    dsimp only
    rw [if_pos ⟨hk1, hk2⟩, hget]
    dsimp only
    rw [hcls]
    constructor
    · rfl
    · intro p hp2
      unfold BookingTransaction.get_booking_summary_lines
      dsimp only
      rw [hp2]
      rcases t.context.return_date with _ | rd <;> simp [pyOptDecStr]

/-- C6 witness: selecting "1" from a one-trip candidate list stores the
trip and its ECONOMY price and renders the summary. -/
theorem C6_flight_selection_witness :
    BookingTransaction.process_internal env0 auth0 txSel "1" =
      (txSelAfter, BookingTransaction.get_booking_summary txSelAfter) :=
  ((C6_flight_selection env0 auth0 txSel "1" rfl (by decide)).2.2 1 "ECONOMY"
    trip100 rfl (by decide) (by decide) rfl rfl).1

/-- C7: at OUTBOUND_DATE an unparsable message re-prompts with state and
context unchanged; a parsed date strictly before today re-prompts
likewise; a parsed date on or after today with stored trip type ONEWAY
stores the date and moves directly to TRAVEL_CLASS, skipping
RETURN_DATE. -/
theorem C7_outbound_date (env : Env) (a : AuthSvc)
    (t : BookingTransaction) (msg : String)
    (hs : t.state = BookingStates.OUTBOUND_DATE) :
    (parseDate msg = none →
      BookingTransaction.process_internal env a t msg =
        (t, "Invalid date format. Please use YYYY-MM-DD format:"))
    ∧ (∀ d, parseDate msg = some d → dateLt d env.today = true →
      BookingTransaction.process_internal env a t msg =
        (t, "Date cannot be in the past. Please enter a future date (YYYY-MM-DD):"))
    ∧ (∀ d, parseDate msg = some d → dateLt d env.today = false →
        t.context.trip_type = some "ONEWAY" →
      BookingTransaction.process_internal env a t msg =
        ({ t with context.outbound_date := some d, state := BookingStates.TRAVEL_CLASS },
          "Please select your travel class (ECONOMY/BUSINESS/FIRST):")) := by
  unfold BookingTransaction.process_internal BookingTransaction.handlers_result
  rw [hs]
  simp only
  unfold BookingTransaction.handle_outbound_date
  refine ⟨?_, ?_, ?_⟩
  · intro hp
    rw [hp]
  · intro d hp hlt
    rw [hp]
    simp only [hlt, if_true]
  · intro d hp hlt htt
    rw [hp]
    simp only [hlt, Bool.false_eq_true, if_false, htt]
    simp

/-- C7 witness: a valid future one-way outbound date advances straight
to TRAVEL_CLASS. -/
theorem C7_outbound_date_witness :
    BookingTransaction.process_internal env0 auth0 txOut "2026-03-05" =
      ({ txOut with context.outbound_date := some ⟨2026, 3, 5⟩, state := BookingStates.TRAVEL_CLASS },
        "Please select your travel class (ECONOMY/BUSINESS/FIRST):") :=
  (C7_outbound_date env0 auth0 txOut "2026-03-05" rfl).2.2 ⟨2026, 3, 5⟩
    (by decide) (by decide) rfl

/-- C9 counterexample: in the booking CONFIRMATION state (authenticated
user) a model-unavailable classification failure is NOT treated as an
"unknown" intent: instead of the yes/no re-prompt with unchanged state,
the dispatch boundary terminates the transaction with the generic
error, refuting the claim that every caller treats the failure
identically to an "unknown" classification. -/
theorem C9_confirmation_model_failure_counterexample :
    BookingTransaction.process env0 auth1 txConf "yes" =
      ({ txConf with state := BookingStates.COMPLETE }, auth1,
        "Sorry, something went wrong. Please start a new booking.")
    ∧ "Sorry, something went wrong. Please start a new booking." ≠
      "I\x27m not sure if you want to confirm or cancel the booking. Please let me know clearly - would you like to proceed with this booking?"
    ∧ ({ txConf with state := BookingStates.COMPLETE } :
        BookingTransaction).state ≠ txConf.state := by
  refine ⟨rfl, by decide, by decide⟩

/-- C9 amended: a model-unavailable classification failure never crashes
a `process_message` call: at the session controller it is caught and
treated as the "unknown" intent (fixed clarification, nothing created),
while inside the booking CONFIRMATION handler it is caught at the
dispatch boundary, terminating the transaction with the generic
start-over response rather than the yes/no re-prompt. -/
theorem C9_model_unavailable_handling (env : Env)
    (cb : FlightBookingChatbot) (a : AuthSvc) (t : BookingTransaction)
    (msg : String)
    (hpl : env.classifier.pipeline = none)
    (hcb : cb.current_transaction = none)
    (ht : t.state = BookingStates.CONFIRMATION)
    (ha : a.is_authenticated = true) :
    FlightBookingChatbot.get_intent env msg = "unknown"
    ∧ FlightBookingChatbot.process_message env cb msg =
        (cb, "I\x27m not sure I understand. Could you please rephrase that?", [])
    ∧ BookingTransaction.process env a t msg =
        ({ t with state := BookingStates.COMPLETE }, a,
          "Sorry, something went wrong. Please start a new booking.") := by
  have hpe : IntentClassifier.predict env.classifier msg =
      .error (.valueError
        "No model available for prediction. Please train or load a model first.") := by
    unfold IntentClassifier.predict
    rw [hpl]
  have hgi : FlightBookingChatbot.get_intent env msg = "unknown" := by
    unfold FlightBookingChatbot.get_intent
    rw [hpe]
  refine ⟨hgi, ?_, ?_⟩
  · have hfac : TransactionFactory.create_transaction
        (FlightBookingChatbot.get_intent env msg) = none := by
      rw [hgi]
      rfl
    unfold FlightBookingChatbot.process_message
    rw [hcb]
    unfold FlightBookingChatbot.classify_and_create
    dsimp only
    rw [hfac]
    rfl
  · have hint : BookingTransaction.process_internal env a t msg =
        ({ t with state := BookingStates.COMPLETE },
          "Sorry, something went wrong. Please start a new booking.") := by
      unfold BookingTransaction.process_internal BookingTransaction.handlers_result
      rw [ht]
      simp only
      unfold BookingTransaction.handle_confirmation
      rw [hpe]
      rfl
    have hra : t.requires_auth = true := by
      simp [BookingTransaction.requires_auth, ht]
    unfold BookingTransaction.process BookingTransaction.check_and_handle_auth
    rw [hra, ha]
    simp [hint]

/-- C9 witness: with no trained model, the controller answers the
clarification string on an empty slot, and an authenticated
CONFIRMATION booking transaction is terminated with the generic
message; neither call crashes. -/
theorem C9_model_unavailable_handling_witness :
    FlightBookingChatbot.get_intent env0 "yes" = "unknown"
    ∧ FlightBookingChatbot.process_message env0 {} "yes" =
        (({} : FlightBookingChatbot),
          "I\x27m not sure I understand. Could you please rephrase that?", [])
    ∧ BookingTransaction.process env0 auth1 txConf "yes" =
        ({ txConf with state := BookingStates.COMPLETE }, auth1,
          "Sorry, something went wrong. Please start a new booking.") :=
  C9_model_unavailable_handling env0 {} auth1 txConf "yes" rfl rfl rfl rfl

/-- C10 amended: for every trip whose outbound flight has a strictly
positive base price (and whose return flight, when present, has a
non-negative one) the three class prices satisfy the non-strict
ordering ECONOMY ≤ BUSINESS ≤ FIRST, and each equals the trip base
price (outbound base plus return base for a round trip with a return
flight, times the trip-type rate) multiplied by the class rate 1.0, 1.8
or 2.5 and rounded half-even to two decimals. The strict ordering of
the original claim fails for tiny base prices (see the
counterexample). -/
theorem C10_price_ordering_amended (t : Trip)
    (hob : 0 < t.outbound_flight.base_price)
    (hrf : ∀ rf, t.return_flight = some rf → 0 ≤ rf.base_price) :
    Trip.get_economy_class_price t ≤ Trip.get_business_class_price t
    ∧ Trip.get_business_class_price t ≤ Trip.get_first_class_price t
    ∧ Trip.get_first_class_price t = rndHE2 (t.calculate_base_trip_price * (5/2))
    ∧ Trip.get_business_class_price t = rndHE2 (t.calculate_base_trip_price * (9/5))
    ∧ Trip.get_economy_class_price t = rndHE2 (t.calculate_base_trip_price * 1) := by
  have hbase : 0 ≤ t.calculate_base_trip_price := by
    unfold Trip.calculate_base_trip_price
    rcases ht : t.trip_type <;> rcases hr : t.return_flight with _ | rf <;>
      dsimp only <;> simp only [TRIP_TYPE_RATES]
    · linarith
    · linarith
    · linarith
    · have := hrf rf hr
      linarith
  refine ⟨?_, ?_, rfl, rfl, rfl⟩
  · unfold Trip.get_economy_class_price Trip.get_business_class_price
    exact rndHE2_mono (by nlinarith)
  · unfold Trip.get_business_class_price Trip.get_first_class_price
    exact rndHE2_mono (by nlinarith)

/-- C10 witness: the base-100 one-way trip has ECONOMY ≤ BUSINESS ≤
FIRST. -/
theorem C10_price_ordering_amended_witness :
    Trip.get_economy_class_price trip100 ≤ Trip.get_business_class_price trip100
    ∧ Trip.get_business_class_price trip100 ≤ Trip.get_first_class_price trip100 :=
  ⟨(C10_price_ordering_amended trip100 (by norm_num [trip100, fl100])
      (by intro rf h; simp [trip100] at h)).1,
    (C10_price_ordering_amended trip100 (by norm_num [trip100, fl100])
      (by intro rf h; simp [trip100] at h)).2.1⟩

end FlightBot
